import Mathlib

/-
  Verification of the access-token lifecycle of the chart-evaluation web
  service (src/api/app/routers/users.py): token issuance, decoding,
  verification, revocation and role-based authorization.

  The embedding is shallow: each request handler of users.py becomes a pure
  Lean function over an explicit database state.  Instants are Unix
  timestamps in seconds (Nat).  The JWT library (PyJWT, HS256) is embedded
  as an abstract codec: a token value records the literal wire string, the
  claims of its envelope, and whether the envelope parses and its signature
  verifies under the process-wide key; jwtDecode reproduces PyJWT's check
  order (signature/structure first, then the exp claim, expired when
  exp <= now).  Python exceptions become Except / explicit error results;
  a handler that mutates the database returns the new state alongside the
  result, the state unchanged on every error path (no commit happens before
  an exception is raised in the source).
-/

namespace PVI

/-- Unix timestamp in seconds. -/
abbrev Timestamp := Nat

/-- Claims carried by an access token's envelope: the subject username and
an optional absolute expiry instant (the "exp" claim). -/
structure Payload where
  username : String
  exp : Option Timestamp
deriving DecidableEq

/-- An access token as presented on the wire: the literal token string
(used for exact-match revocation lookups), whether the envelope is
structurally well formed, whether its signature verifies under the
process-wide JWT_KEY, and the claims it carries. -/
structure Token where
  raw : String
  wellFormed : Bool
  sigValid : Bool
  payload : Payload
deriving DecidableEq

/-- Decode failure modes of jwt.decode: InvalidTokenError (malformed
envelope or bad signature) and ExpiredSignatureError (valid signature,
exp claim in the past). -/
inductive DecodeError where
  | invalidToken
  | expiredSignature
deriving DecidableEq

/-- Embedding of jwt.decode(token, JWT_KEY, algorithms=["HS256"]): the
signature and envelope structure are checked first (failure:
InvalidTokenError); only then is the exp claim validated, raising
ExpiredSignatureError when exp <= now.  On success the claims are
returned. -/
def jwtDecode (now : Timestamp) (t : Token) : Except DecodeError Payload :=
  if t.wellFormed && t.sigValid then
    match t.payload.exp with
    | some e => if e ≤ now then .error .expiredSignature else .ok t.payload
    | none => .ok t.payload
  else
    .error .invalidToken

/-- Row of the User table (users.py lines 23-28): username is the primary
key; type is the role ("admin" or "user"); password stores the Argon2
hash. -/
structure User where
  username : String
  full_name : String
  disabled : Bool
  type : String
  password : String
deriving DecidableEq

/-- Row of the RevokedToken table (users.py lines 44-47): a surrogate id
(primary key, assigned by the store), the literal token string and the
token's expiry instant. -/
structure RevokedToken where
  id : Option Nat
  token : String
  expires_at : Timestamp
deriving DecidableEq

/-- The backing database: the User table and the RevokedToken table. -/
structure DB where
  users : List User
  revoked : List RevokedToken
deriving DecidableEq

/-- session.get(User, username): primary-key lookup. -/
def findUser (db : DB) (username : String) : Option User :=
  db.users.find? (fun u => u.username == username)

/-- select(RevokedToken).where(RevokedToken.token == token) ... .first():
exact-match lookup of the literal token string. -/
def findRevoked (db : DB) (token : String) : Option RevokedToken :=
  db.revoked.find? (fun r => r.token == token)

/-- An HTTPException raised by a handler: status code and detail. -/
structure HTTPError where
  status : Nat
  detail : String
deriving DecidableEq

/-- Abstract embedding of passlib's argon2.hash (users.py line 70).  The
memory-hard hash itself is an external collaborator outside this spec's
scope; it is modelled as an injective tagging so that verification
succeeds exactly when the stored hash was produced from the same
password. -/
def hash_password (password : String) : String :=
  "$argon2id$" ++ password

/-- Abstract embedding of passlib's argon2.verify(password, stored). -/
def argon2_verify (password stored : String) : Bool :=
  stored == hash_password password

/-- issue_access_token (users.py lines 246-260): a signed envelope carrying
the username and an exp claim of exactly 7 days (604800 seconds) from
now, signed with the process-wide key (so the signature verifies and the
envelope is well formed). -/
def issue_access_token (now : Timestamp) (username : String) : Token :=
  let payload : Payload := { username := username, exp := some (now + 7 * 24 * 60 * 60) }
  { raw := "hdr." ++ username ++ "." ++ toString (now + 7 * 24 * 60 * 60)
    wellFormed := true
    sigValid := true
    payload := payload }

/-- login_user (users.py lines 211-244): look up the user (404 if absent),
verify the password against the stored Argon2 hash (401 on mismatch),
reject disabled accounts (401), else issue an access token. -/
def login_user (now : Timestamp) (db : DB) (username password : String) :
    Except HTTPError Token :=
  match findUser db username with
  | none => .error ⟨404, "User not found"⟩
  | some db_user =>
    if !argon2_verify password db_user.password then
      .error ⟨401, "Incorrect password"⟩
    else if db_user.disabled then
      .error ⟨401, "User is disabled"⟩
    else
      .ok (issue_access_token now username)

/-- verify_access_token (users.py lines 262-300): decode the token
(expired -> 401 expired, invalid -> 401 invalid), look up the user
(404), reject disabled accounts (401), reject revoked tokens (401,
exact-string lookup), else return the user. -/
def verify_access_token (now : Timestamp) (db : DB) (t : Token) :
    Except HTTPError User :=
  match jwtDecode now t with
  | .error .expiredSignature => .error ⟨401, "Access token has expired"⟩
  | .error .invalidToken => .error ⟨401, "Invalid access token"⟩
  | .ok payload =>
    match findUser db payload.username with
    | none => .error ⟨404, "User not found"⟩
    | some db_user =>
      if db_user.disabled then .error ⟨401, "User is disabled"⟩
      else
        match findRevoked db t.raw with
        | some _ => .error ⟨401, "Access token has been revoked"⟩
        | none => .ok db_user

/-- verify_if_admin (users.py lines 353-391): decode, user exists (404),
not disabled (401), token not revoked (401), and finally the role check:
401 "User is not admin" unless type == "admin". -/
def verify_if_admin (now : Timestamp) (db : DB) (t : Token) :
    Except HTTPError Unit :=
  match jwtDecode now t with
  | .error .expiredSignature => .error ⟨401, "Access token has expired"⟩
  | .error .invalidToken => .error ⟨401, "Invalid access token"⟩
  | .ok payload =>
    match findUser db payload.username with
    | none => .error ⟨404, "User not found"⟩
    | some db_user =>
      if db_user.disabled then .error ⟨401, "User is disabled"⟩
      else
        match findRevoked db t.raw with
        | some _ => .error ⟨401, "Access token has been revoked"⟩
        | none =>
          if db_user.type == "admin" then .ok ()
          else .error ⟨401, "User is not admin"⟩

/-- verify_user (users.py lines 394-429): like verify_if_admin but with no
role requirement. -/
def verify_user (now : Timestamp) (db : DB) (t : Token) :
    Except HTTPError Unit :=
  match jwtDecode now t with
  | .error .expiredSignature => .error ⟨401, "Access token has expired"⟩
  | .error .invalidToken => .error ⟨401, "Invalid access token"⟩
  | .ok payload =>
    match findUser db payload.username with
    | none => .error ⟨404, "User not found"⟩
    | some db_user =>
      if db_user.disabled then .error ⟨401, "User is disabled"⟩
      else
        match findRevoked db t.raw with
        | some _ => .error ⟨401, "Access token has been revoked"⟩
        | none => .ok ()

/-- revoke_access_token (users.py lines 302-350): decode the token (401 on
expired/invalid), user exists (404), duplicate check on the exact token
string (400 "Token is already revoked") BEFORE the insert, exp claim
present (400 "Invalid token expiration"), then insert one RevokedToken
row carrying the literal token string and the decoded expiry.  Returns
the new database alongside the result; on every error the database is
returned unchanged (the source raises before any commit). -/
def revoke_access_token (now : Timestamp) (db : DB) (t : Token) :
    DB × Except HTTPError String :=
  match jwtDecode now t with
  | .error .expiredSignature => (db, .error ⟨401, "Access token has expired"⟩)
  | .error .invalidToken => (db, .error ⟨401, "Invalid access token"⟩)
  | .ok payload =>
    match findUser db payload.username with
    | none => (db, .error ⟨404, "User not found"⟩)
    | some _ =>
      match findRevoked db t.raw with
      | some _ => (db, .error ⟨400, "Token is already revoked"⟩)
      | none =>
        match payload.exp with
        | none => (db, .error ⟨400, "Invalid token expiration"⟩)
        | some e =>
          ({ db with revoked := db.revoked ++ [⟨none, t.raw, e⟩] },
           .ok "Access token revoked successfully")

/-- Outcome of a handler whose body can let an exception escape untyped:
either a result, a typed HTTPException, or an uncaught library
exception reaching the framework. -/
inductive Outcome (α : Type) where
  | ok (a : α)
  | httpError (e : HTTPError)
  | uncaught (e : DecodeError)
deriving DecidableEq

/-- get_user (users.py lines 107-137): the bearer token is decoded at line
128 OUTSIDE any try/except, so a decode failure escapes as an uncaught
jwt exception; on success, verify_if_admin is used when the token's
subject differs from the requested username, verify_user otherwise, and
then the requested user is looked up (404 if absent). -/
def get_user (now : Timestamp) (db : DB) (username : String) (t : Token) :
    Outcome User :=
  match jwtDecode now t with
  | .error e => .uncaught e
  | .ok payload =>
    match (if payload.username != username
           then verify_if_admin now db t
           else verify_user now db t) with
    | .error e => .httpError e
    | .ok _ =>
      match findUser db username with
      | none => .httpError ⟨404, "User not found"⟩
      | some db_user => .ok db_user

/-- Input shape of create_user (users.py lines 30-31). -/
structure UserCreate where
  username : String
  full_name : String
  disabled : Bool
  type : String
  password : String
deriving DecidableEq

/-- create_user (users.py lines 72-105): admin authorization, duplicate
username check (400), then insert with the hashed password. -/
def create_user (now : Timestamp) (db : DB) (t : Token) (user : UserCreate) :
    DB × Except HTTPError User :=
  match verify_if_admin now db t with
  | .error e => (db, .error e)
  | .ok _ =>
    match findUser db user.username with
    | some _ => (db, .error ⟨400, "User with this username already exists"⟩)
    | none =>
      let db_user : User :=
        ⟨user.username, user.full_name, user.disabled, user.type,
          hash_password user.password⟩
      ({ db with users := db.users ++ [db_user] }, .ok db_user)

/-- Input shape of update_user (users.py lines 33-38): every field
optional; absent fields are excluded by model_dump(exclude_unset=True). -/
structure UserUpdate where
  username : Option String
  full_name : Option String
  disabled : Option Bool
  type : Option String
  password : Option String
deriving DecidableEq

/-- The setattr loop of update_user (users.py lines 167-172): each present
field overwrites the stored one; a present password is stored hashed. -/
def applyUpdate (u : User) (upd : UserUpdate) : User :=
  let u1 := match upd.username with | some x => { u with username := x } | none => u
  let u2 := match upd.full_name with | some x => { u1 with full_name := x } | none => u1
  let u3 := match upd.disabled with | some x => { u2 with disabled := x } | none => u2
  let u4 := match upd.type with | some x => { u3 with type := x } | none => u3
  match upd.password with
  | some x => { u4 with password := hash_password x }
  | none => u4

/-- update_user (users.py lines 139-176): admin authorization, lookup
(404), apply the partial update to the stored row, commit. -/
def update_user (now : Timestamp) (db : DB) (username : String)
    (upd : UserUpdate) (t : Token) : DB × Except HTTPError User :=
  match verify_if_admin now db t with
  | .error e => (db, .error e)
  | .ok _ =>
    match findUser db username with
    | none => (db, .error ⟨404, "User not found"⟩)
    | some db_user =>
      let updated := applyUpdate db_user upd
      ({ db with
          users := db.users.map (fun u => if u.username == username then updated else u) },
       .ok updated)

/-- delete_user (users.py lines 178-209): admin authorization, lookup
(404), delete the row. -/
def delete_user (now : Timestamp) (db : DB) (username : String) (t : Token) :
    DB × Except HTTPError Unit :=
  match verify_if_admin now db t with
  | .error e => (db, .error e)
  | .ok _ =>
    match findUser db username with
    | none => (db, .error ⟨404, "User not found"⟩)
    | some _ =>
      ({ db with users := db.users.filter (fun u => !(u.username == username)) },
       .ok ())

/-- One database transition of the service: any mutating handler invoked
with any arguments at any instant.  login_user, verify_access_token,
verify_if_admin, verify_user and get_user are read-only and induce no
transition. -/
inductive Step : DB → DB → Prop
  | create (now : Timestamp) (db : DB) (t : Token) (u : UserCreate) :
      Step db (create_user now db t u).1
  | update (now : Timestamp) (db : DB) (username : String) (upd : UserUpdate) (t : Token) :
      Step db (update_user now db username upd t).1
  | delete (now : Timestamp) (db : DB) (username : String) (t : Token) :
      Step db (delete_user now db username t).1
  | revoke (now : Timestamp) (db : DB) (t : Token) :
      Step db (revoke_access_token now db t).1

/-- Database states reachable from a given state via any sequence of
handler invocations. -/
def Reachable : DB → DB → Prop :=
  Relation.ReflTransGen Step

/-- Typed taxonomy image of each decode failure, as mapped by the
try/except blocks of verify_access_token, revoke_access_token,
verify_if_admin and verify_user. -/
def mapDecodeError : DecodeError → HTTPError
  | .expiredSignature => ⟨401, "Access token has expired"⟩
  | .invalidToken => ⟨401, "Invalid access token"⟩

/-- Declared constraints of one column of the RevokedToken table schema. -/
structure ColumnSpec where
  name : String
  primary_key : Bool
  uniqueKey : Bool
deriving DecidableEq

/-- The RevokedToken table schema exactly as declared at users.py lines
44-47: id is Field(default=None, primary_key=True); token and expires_at
are plain columns with no Field(...) call, hence no unique constraint
and no index of their own. -/
def revokedTokenColumns : List ColumnSpec :=
  [⟨"id", true, false⟩, ⟨"token", false, false⟩, ⟨"expires_at", false, false⟩]

/-- Whether the declared schema enforces uniqueness of the values of the
named column (via a primary key or a unique constraint). -/
def schemaEnforcesUnique (c : String) : Bool :=
  (revokedTokenColumns.find? (fun col => col.name == c)).elim false
    (fun col => col.primary_key || col.uniqueKey)

/-- A RevokedToken table content the declared schema admits: the store
rejects exactly the states violating a declared primary-key or unique
constraint, and the only one declared is the primary key on id. -/
def schemaAdmissible (rows : List RevokedToken) : Prop :=
  (rows.map RevokedToken.id).Nodup

instance (rows : List RevokedToken) : Decidable (schemaAdmissible rows) := by
  unfold schemaAdmissible
  infer_instance

/-- At most one RevokedToken row per exact token string. -/
def RevokedUnique (db : DB) : Prop :=
  ∀ s : String, (db.revoked.countP (fun r => r.token == s)) ≤ 1

/-! ### General lemmas about the codec and the handlers -/

/-- A successful decode returns exactly the token's claims, and any exp
claim those carry is strictly in the future. -/
theorem jwtDecode_ok_payload (now : Timestamp) (t : Token) (p : Payload)
    (h : jwtDecode now t = Except.ok p) :
    p = t.payload ∧ ∀ e, p.exp = some e → now < e := by
  unfold jwtDecode at h
  rcases hw : t.wellFormed <;> rcases hs : t.sigValid <;>
    simp [hw, hs] at h
  rcases he : t.payload.exp with _ | e <;> simp [he] at h
  · exact ⟨h.symm, by simp [← h, he]⟩
  · by_cases hle : e ≤ now
    · simp [hle] at h
    · simp [hle] at h
      refine ⟨h.symm, ?_⟩
      intro e2 he2
      rw [← h, he] at he2
      cases he2
      exact Nat.not_le.mp hle

/-- create_user never touches the RevokedToken table. -/
theorem create_user_revoked_eq (now : Timestamp) (db : DB) (t : Token) (u : UserCreate) :
    (create_user now db t u).1.revoked = db.revoked := by
  unfold create_user
  rcases h1 : verify_if_admin now db t with e | w <;> simp
  rcases h2 : findUser db u.username with _ | x <;> simp

/-- update_user never touches the RevokedToken table. -/
theorem update_user_revoked_eq (now : Timestamp) (db : DB) (username : String)
    (upd : UserUpdate) (t : Token) :
    (update_user now db username upd t).1.revoked = db.revoked := by
  unfold update_user
  rcases h1 : verify_if_admin now db t with e | w <;> simp
  rcases h2 : findUser db username with _ | x <;> simp

/-- delete_user never touches the RevokedToken table. -/
theorem delete_user_revoked_eq (now : Timestamp) (db : DB) (username : String)
    (t : Token) :
    (delete_user now db username t).1.revoked = db.revoked := by
  unfold delete_user
  rcases h1 : verify_if_admin now db t with e | w <;> simp
  rcases h2 : findUser db username with _ | x <;> simp

/-- revoke_access_token leaves the RevokedToken table unchanged or appends
the single row carrying the literal token string. -/
theorem revoke_revoked_cases (now : Timestamp) (db : DB) (t : Token) :
    (revoke_access_token now db t).1.revoked = db.revoked ∨
    (findRevoked db t.raw = none ∧
      ∃ e, (revoke_access_token now db t).1.revoked
            = db.revoked ++ [RevokedToken.mk none t.raw e]) := by
  unfold revoke_access_token
  rcases hd : jwtDecode now t with e | p
  · cases e <;> simp
  · simp
    rcases h2 : findUser db p.username with _ | u <;> simp
    rcases h3 : findRevoked db t.raw with _ | x <;> simp
    rcases h4 : p.exp with _ | e2 <;> simp

/-- revoke_access_token never changes the User table. -/
theorem revoke_users_eq (now : Timestamp) (db : DB) (t : Token) :
    (revoke_access_token now db t).1.users = db.users := by
  unfold revoke_access_token
  rcases hd : jwtDecode now t with e | p
  · cases e <;> simp
  · simp
    rcases h2 : findUser db p.username with _ | u <;> simp
    rcases h3 : findRevoked db t.raw with _ | x <;> simp
    rcases h4 : p.exp with _ | e2 <;> simp

/-- Every transition of the service preserves membership in the
RevokedToken table: no handler ever deletes a revocation row. -/
theorem step_revoked_mono {a b : DB} (h : Step a b) :
    ∀ r ∈ a.revoked, r ∈ b.revoked := by
  intro r hr
  cases h with
  | create now db t u => rw [create_user_revoked_eq]; exact hr
  | update now db username upd t => rw [update_user_revoked_eq]; exact hr
  | delete now db username t => rw [delete_user_revoked_eq]; exact hr
  | revoke now db t =>
    rcases revoke_revoked_cases now a t with h1 | ⟨hfresh, e, h1⟩ <;> rw [h1]
    · exact hr
    · exact List.mem_append_left _ hr

/-- Revocation rows persist along every reachable sequence of handler
invocations. -/
theorem reachable_revoked_mono {a b : DB} (h : Reachable a b) :
    ∀ r ∈ a.revoked, r ∈ b.revoked := by
  unfold Reachable at h
  induction h with
  | refl => exact fun r hr => hr
  | tail hsteps hstep ih => exact fun r hr => step_revoked_mono hstep r (ih r hr)

/-- A successful revocation appends exactly the row carrying the literal
token string and the decoded expiry. -/
theorem revoke_ok_inserts (now : Timestamp) (db : DB) (t : Token) (msg : String)
    (h : (revoke_access_token now db t).2 = Except.ok msg) :
    ∃ r ∈ (revoke_access_token now db t).1.revoked, r.token = t.raw := by
  unfold revoke_access_token at h ⊢
  rcases hd : jwtDecode now t with e | p
  · cases e <;> simp [hd] at h
  · rcases h2 : findUser db p.username with _ | u
    · simp [hd, h2] at h
    · rcases h3 : findRevoked db t.raw with _ | x
      · rcases h4 : p.exp with _ | e2
        · simp [hd, h2, h3, h4] at h
        · simp only [hd, h2, h3, h4]
          exact ⟨RevokedToken.mk none t.raw e2,
            List.mem_append_right _ (List.mem_singleton_self _), rfl⟩
      · simp [hd, h2, h3] at h

/-! ### Claim theorems -/

/-- C5: decode failure modes are mutually exclusive and checked in order:
an invalid signature or malformed envelope yields InvalidToken, and a
well-signed token whose expiry instant has passed yields TokenExpired,
never InvalidToken (and verify surfaces it as 401 "Access token has
expired"). -/
theorem C5_decode_failure_modes (now : Timestamp) (db : DB) (t : Token) :
    (¬(t.wellFormed = true ∧ t.sigValid = true) →
        jwtDecode now t = Except.error DecodeError.invalidToken) ∧
    (∀ e, t.wellFormed = true → t.sigValid = true → t.payload.exp = some e →
      e ≤ now →
        jwtDecode now t = Except.error DecodeError.expiredSignature ∧
        jwtDecode now t ≠ Except.error DecodeError.invalidToken ∧
        verify_access_token now db t
          = Except.error ⟨401, "Access token has expired"⟩) := by
  constructor
  · intro h
    unfold jwtDecode
    rcases hw : t.wellFormed <;> rcases hs : t.sigValid <;> simp_all
  · intro e hw hs he hle
    have hd : jwtDecode now t = Except.error DecodeError.expiredSignature := by
      unfold jwtDecode
      simp [hw, hs, he, hle]
    exact ⟨hd, by simp [hd], by simp [verify_access_token, hd]⟩

/-- Witness for C5 at a concrete expired token. -/
theorem C5_decode_failure_modes_witness :
    jwtDecode 200 (Token.mk "tk" true true (Payload.mk "alice" (some 100)))
      = Except.error DecodeError.expiredSignature :=
  ((C5_decode_failure_modes 200 (DB.mk [] [])
      (Token.mk "tk" true true (Payload.mk "alice" (some 100)))).2
    100 rfl rfl rfl (by decide)).1

/-- C6: decoding a token immediately after issuance succeeds, returns the
same identity, and the expiry claim is exactly 7 days (604800 seconds)
after the issuance instant. -/
theorem C6_issue_decode_roundtrip (now : Timestamp) (identity : String) :
    jwtDecode now (issue_access_token now identity)
      = Except.ok (Payload.mk identity (some (now + 7 * 24 * 60 * 60))) ∧
    (issue_access_token now identity).payload.exp
      = some (now + 7 * 24 * 60 * 60) := by
  refine ⟨?_, rfl⟩
  unfold jwtDecode issue_access_token
  simp

/-- C9: get_user decodes the bearer token outside the exception handler,
so a failing decode escapes as an uncaught jwt exception, while every
other token-consuming operation maps the same decode failure to its
typed 401 rejection. -/
theorem C9_get_user_uncaught_decode (now : Timestamp) (db : DB)
    (username : String) (t : Token) (e : DecodeError)
    (hdec : jwtDecode now t = Except.error e) :
    get_user now db username t = Outcome.uncaught e ∧
    verify_access_token now db t = Except.error (mapDecodeError e) ∧
    (revoke_access_token now db t).2 = Except.error (mapDecodeError e) ∧
    (revoke_access_token now db t).1 = db ∧
    verify_if_admin now db t = Except.error (mapDecodeError e) ∧
    verify_user now db t = Except.error (mapDecodeError e) := by
  cases e <;>
    simp [get_user, verify_access_token, revoke_access_token, verify_if_admin,
      verify_user, mapDecodeError, hdec]

/-- Witness for C9 at a concrete expired token. -/
theorem C9_get_user_uncaught_decode_witness :
    get_user 200 (DB.mk [] []) "alice"
        (Token.mk "tk" true true (Payload.mk "alice" (some 100)))
      = Outcome.uncaught DecodeError.expiredSignature :=
  (C9_get_user_uncaught_decode 200 (DB.mk [] []) "alice"
      (Token.mk "tk" true true (Payload.mk "alice" (some 100)))
      DecodeError.expiredSignature rfl).1

/-- C1: verify_if_admin checks in strict order with short-circuiting:
decode (propagating InvalidToken/TokenExpired), then AccountNotFound,
then AccountDisabled (regardless of revocation and role), then
TokenRevoked (regardless of role), and only then the role check, 401
"User is not admin" exactly when the account's type differs from
"admin". -/
theorem C1_authorize_strict_order (now : Timestamp) (db : DB) (t : Token) :
    (∀ e, jwtDecode now t = Except.error e →
        verify_if_admin now db t = Except.error (mapDecodeError e)) ∧
    (∀ p, jwtDecode now t = Except.ok p →
      (findUser db p.username = none →
          verify_if_admin now db t = Except.error ⟨404, "User not found"⟩) ∧
      (∀ u, findUser db p.username = some u →
        (u.disabled = true →
            verify_if_admin now db t = Except.error ⟨401, "User is disabled"⟩) ∧
        (u.disabled = false →
          (∀ r, findRevoked db t.raw = some r →
              verify_if_admin now db t
                = Except.error ⟨401, "Access token has been revoked"⟩) ∧
          (findRevoked db t.raw = none →
            (u.type ≠ "admin" →
                verify_if_admin now db t
                  = Except.error ⟨401, "User is not admin"⟩) ∧
            (u.type = "admin" → verify_if_admin now db t = Except.ok ()))))) := by
  constructor
  · intro e hdec
    cases e <;> simp [verify_if_admin, mapDecodeError, hdec]
  · intro p hdec
    constructor
    · intro hu
      simp [verify_if_admin, hdec, hu]
    · intro u hu
      constructor
      · intro hdis
        simp [verify_if_admin, hdec, hu, hdis]
      · intro hdis
        constructor
        · intro r hrev
          simp [verify_if_admin, hdec, hu, hdis, hrev]
        · intro hrev
          constructor
          · intro hrole
            simp [verify_if_admin, hdec, hu, hdis, hrev, hrole]
          · intro hrole
            simp [verify_if_admin, hdec, hu, hdis, hrev, hrole]

/-- Witness for C1: a disabled admin whose token is even revoked still
reports 401 "User is disabled" — the disabled check fires before the
revocation and role checks. -/
theorem C1_authorize_strict_order_witness :
    verify_if_admin 0
        (DB.mk [User.mk "root" "Root" true "admin" "h"]
               [RevokedToken.mk (some 1) "tk" 100])
        (Token.mk "tk" true true (Payload.mk "root" (some 100)))
      = Except.error ⟨401, "User is disabled"⟩ :=
  ((((C1_authorize_strict_order 0
        (DB.mk [User.mk "root" "Root" true "admin" "h"]
               [RevokedToken.mk (some 1) "tk" 100])
        (Token.mk "tk" true true (Payload.mk "root" (some 100)))).2
      (Payload.mk "root" (some 100)) rfl).2
      (User.mk "root" "Root" true "admin" "h") rfl).1 rfl)

/-- C7: login_user checks in order: AccountNotFound if the user is absent,
InvalidCredentials if the Argon2 verification fails, AccountDisabled if
the account is disabled, else a token is issued; a disabled account
never receives a token. -/
theorem C7_login_order (now : Timestamp) (db : DB) (username password : String) :
    (findUser db username = none →
        login_user now db username password
          = Except.error ⟨404, "User not found"⟩) ∧
    (∀ u, findUser db username = some u →
      (argon2_verify password u.password = false →
          login_user now db username password
            = Except.error ⟨401, "Incorrect password"⟩) ∧
      (argon2_verify password u.password = true →
        (u.disabled = true →
            login_user now db username password
              = Except.error ⟨401, "User is disabled"⟩) ∧
        (u.disabled = false →
            login_user now db username password
              = Except.ok (issue_access_token now username))) ∧
      (u.disabled = true →
          ∀ tok, login_user now db username password ≠ Except.ok tok)) := by
  constructor
  · intro hu
    simp [login_user, hu]
  · intro u hu
    refine ⟨fun hpw => by simp [login_user, hu, hpw], ?_, ?_⟩
    · intro hpw
      exact ⟨fun hdis => by simp [login_user, hu, hpw, hdis],
             fun hdis => by simp [login_user, hu, hpw, hdis]⟩
    · intro hdis tok
      rcases hpw : argon2_verify password u.password <;>
        simp [login_user, hu, hpw, hdis]

/-- Witness for C7: login with the correct password of a disabled account
is rejected with 401 "User is disabled". -/
theorem C7_login_order_witness :
    login_user 0 (DB.mk [User.mk "bob" "Bob" true "user" (hash_password "pw")] [])
        "bob" "pw"
      = Except.error ⟨401, "User is disabled"⟩ :=
  (((C7_login_order 0
        (DB.mk [User.mk "bob" "Bob" true "user" (hash_password "pw")] [])
        "bob" "pw").2
      (User.mk "bob" "Bob" true "user" (hash_password "pw")) rfl).2.1 rfl).1 rfl

/-- C3 as stated is false on the code: for a disabled account and an
EXPIRED token carrying its identity, verify fails TokenExpired (the
decode runs first), not AccountDisabled — so "regardless of ... expiry
state" does not hold.  Concrete input: account alice disabled, token
exp 100, current time 200. -/
theorem C3_counterexample :
    findUser (DB.mk [User.mk "alice" "Alice" true "user" "h"] []) "alice"
      = some (User.mk "alice" "Alice" true "user" "h") ∧
    (User.mk "alice" "Alice" true "user" "h").disabled = true ∧
    (Token.mk "tk" true true (Payload.mk "alice" (some 100))).payload.username
      = "alice" ∧
    verify_access_token 200 (DB.mk [User.mk "alice" "Alice" true "user" "h"] [])
        (Token.mk "tk" true true (Payload.mk "alice" (some 100)))
      = Except.error ⟨401, "Access token has expired"⟩ ∧
    (HTTPError.mk 401 "Access token has expired")
      ≠ (HTTPError.mk 401 "User is disabled") :=
  ⟨rfl, rfl, rfl, rfl, by decide⟩

/-- C3 amended: for every disabled account and every token carrying that
account's identity that still decodes successfully (well signed,
unexpired), verify fails AccountDisabled regardless of the token's
revocation state. -/
theorem C3_disabled_dominates (now : Timestamp) (db : DB) (t : Token)
    (p : Payload) (u : User)
    (hdec : jwtDecode now t = Except.ok p)
    (hfind : findUser db p.username = some u)
    (hdis : u.disabled = true) :
    verify_access_token now db t = Except.error ⟨401, "User is disabled"⟩ := by
  simp [verify_access_token, hdec, hfind, hdis]

/-- Witness for the amended C3: a disabled account whose token is revoked
still reports 401 "User is disabled". -/
theorem C3_disabled_dominates_witness :
    verify_access_token 0
        (DB.mk [User.mk "alice" "Alice" true "user" "h"]
               [RevokedToken.mk (some 1) "tk" 100])
        (Token.mk "tk" true true (Payload.mk "alice" (some 100)))
      = Except.error ⟨401, "User is disabled"⟩ :=
  C3_disabled_dominates 0
    (DB.mk [User.mk "alice" "Alice" true "user" "h"]
           [RevokedToken.mk (some 1) "tk" 100])
    (Token.mk "tk" true true (Payload.mk "alice" (some 100)))
    (Payload.mk "alice" (some 100))
    (User.mk "alice" "Alice" true "user" "h") rfl rfl rfl

/-- C4 as stated is false on the code: an EXPIRED token whose account
exists and which was never revoked is rejected by its first revoke with
401 TokenExpired, and nothing is inserted.  Concrete input: account
alice enabled, token exp 100, current time 200, empty revocation
store. -/
theorem C4_counterexample :
    findUser (DB.mk [User.mk "alice" "Alice" false "user" "h"] [])
        (Token.mk "tk" true true (Payload.mk "alice" (some 100))).payload.username
      = some (User.mk "alice" "Alice" false "user" "h") ∧
    (revoke_access_token 200 (DB.mk [User.mk "alice" "Alice" false "user" "h"] [])
        (Token.mk "tk" true true (Payload.mk "alice" (some 100)))).2
      = Except.error ⟨401, "Access token has expired"⟩ ∧
    (revoke_access_token 200 (DB.mk [User.mk "alice" "Alice" false "user" "h"] [])
        (Token.mk "tk" true true (Payload.mk "alice" (some 100)))).1.revoked
      = [] :=
  ⟨rfl, rfl, rfl⟩

/-- C4 amended: for every token that decodes successfully, carries an exp
claim, whose account exists and which has no revocation entry yet, the
first revoke succeeds and appends exactly one RevokedToken row, and a
second revoke of the same token string, at any instant at which the
token still decodes, fails AlreadyRevoked (400) with the store left
unchanged. -/
theorem C4_revoke_once_then_conflict (now : Timestamp) (db : DB) (t : Token)
    (p : Payload) (e : Timestamp)
    (hdec : jwtDecode now t = Except.ok p)
    (hexp : p.exp = some e)
    (u : User) (hacct : findUser db p.username = some u)
    (hfresh : findRevoked db t.raw = none) :
    (revoke_access_token now db t).2
      = Except.ok "Access token revoked successfully" ∧
    (revoke_access_token now db t).1.revoked
      = db.revoked ++ [RevokedToken.mk none t.raw e] ∧
    (∀ now2 p2, jwtDecode now2 t = Except.ok p2 →
      (revoke_access_token now2 (revoke_access_token now db t).1 t).2
        = Except.error ⟨400, "Token is already revoked"⟩ ∧
      (revoke_access_token now2 (revoke_access_token now db t).1 t).1
        = (revoke_access_token now db t).1) := by
  have hfirst : revoke_access_token now db t
      = ({ db with revoked := db.revoked ++ [RevokedToken.mk none t.raw e] },
         Except.ok "Access token revoked successfully") := by
    simp [revoke_access_token, hdec, hacct, hfresh, hexp]
  refine ⟨by rw [hfirst], by rw [hfirst], ?_⟩
  intro now2 p2 hdec2
  have hp : p = t.payload := (jwtDecode_ok_payload now t p hdec).1
  have hp2 : p2 = t.payload := (jwtDecode_ok_payload now2 t p2 hdec2).1
  have hacct2 : findUser
      { db with revoked := db.revoked ++ [RevokedToken.mk none t.raw e] }
      p2.username = some u := by
    rw [hp2, ← hp]
    exact hacct
  have hdup : findRevoked
      { db with revoked := db.revoked ++ [RevokedToken.mk none t.raw e] }
      t.raw = some (RevokedToken.mk none t.raw e) := by
    unfold findRevoked at hfresh ⊢
    show (db.revoked ++ [RevokedToken.mk none t.raw e]).find? _ = _
    rw [List.find?_append, hfresh]
    simp
  rw [hfirst]
  constructor
  · simp [revoke_access_token, hdec2, hacct2, hdup]
  · simp [revoke_access_token, hdec2, hacct2, hdup]

/-- Witness for the amended C4 at a concrete token and store. -/
theorem C4_revoke_once_then_conflict_witness :
    (revoke_access_token 0 (DB.mk [User.mk "alice" "Alice" false "user" "h"] [])
        (Token.mk "tk" true true (Payload.mk "alice" (some 100)))).2
      = Except.ok "Access token revoked successfully" ∧
    (revoke_access_token 0
        (revoke_access_token 0 (DB.mk [User.mk "alice" "Alice" false "user" "h"] [])
            (Token.mk "tk" true true (Payload.mk "alice" (some 100)))).1
        (Token.mk "tk" true true (Payload.mk "alice" (some 100)))).2
      = Except.error ⟨400, "Token is already revoked"⟩ := by
  have h := C4_revoke_once_then_conflict 0
    (DB.mk [User.mk "alice" "Alice" false "user" "h"] [])
    (Token.mk "tk" true true (Payload.mk "alice" (some 100)))
    (Payload.mk "alice" (some 100)) 100 rfl rfl
    (User.mk "alice" "Alice" false "user" "h") rfl rfl
  exact ⟨h.1, (h.2.2 0 (Payload.mk "alice" (some 100)) rfl).1⟩

/-- C10: revoke decodes the token before any store mutation, so revoking a
well-signed token past its expiry instant fails TokenExpired with the
store untouched, and every row a successful revoke inserts has its
expiry strictly in the future at the instant of insertion. -/
theorem C10_revoke_decode_before_insert (now : Timestamp) (db : DB) (t : Token) :
    (t.wellFormed = true → t.sigValid = true →
      ∀ e, t.payload.exp = some e → e ≤ now →
        revoke_access_token now db t
          = (db, Except.error ⟨401, "Access token has expired"⟩)) ∧
    (∀ db2 msg, revoke_access_token now db t = (db2, Except.ok msg) →
        ∀ r ∈ db2.revoked, r ∈ db.revoked ∨
          (r.token = t.raw ∧ now < r.expires_at)) := by
  constructor
  · intro hw hs e he hle
    have hd : jwtDecode now t = Except.error DecodeError.expiredSignature := by
      unfold jwtDecode
      simp [hw, hs, he, hle]
    simp [revoke_access_token, hd]
  · intro db2 msg h r hr
    unfold revoke_access_token at h
    rcases hd : jwtDecode now t with e | p
    · cases e <;> simp [hd] at h
    · rcases h2 : findUser db p.username with _ | u
      · simp [hd, h2] at h
      · rcases h3 : findRevoked db t.raw with _ | x
        · rcases h4 : p.exp with _ | e2
          · simp [hd, h2, h3, h4] at h
          · simp only [hd, h2, h3, h4] at h
            have hdb2 : db2
                = { db with revoked := db.revoked ++ [RevokedToken.mk none t.raw e2] } := by
              have h5 := congrArg Prod.fst h
              simpa using h5.symm
            rw [hdb2] at hr
            have hr2 : r ∈ db.revoked ++ [RevokedToken.mk none t.raw e2] := hr
            rcases List.mem_append.mp hr2 with hin | hin
            · exact Or.inl hin
            · rcases List.mem_singleton.mp hin with rfl
              refine Or.inr ⟨rfl, ?_⟩
              exact ((jwtDecode_ok_payload now t p hd).2 e2 h4)
        · simp [hd, h2, h3] at h

/-- Witness for C10 at a concrete expired token: revoke rejects it and the
store is untouched. -/
theorem C10_revoke_decode_before_insert_witness :
    revoke_access_token 200 (DB.mk [User.mk "alice" "Alice" false "user" "h"] [])
        (Token.mk "tk" true true (Payload.mk "alice" (some 100)))
      = (DB.mk [User.mk "alice" "Alice" false "user" "h"] [],
         Except.error ⟨401, "Access token has expired"⟩) :=
  (C10_revoke_decode_before_insert 200
      (DB.mk [User.mk "alice" "Alice" false "user" "h"] [])
      (Token.mk "tk" true true (Payload.mk "alice" (some 100)))).1
    rfl rfl 100 rfl (by decide)

/-- C2 as stated is false on the code: revoke never checks the disabled
flag, so revoking a DISABLED account's valid token succeeds, after
which verify fails 401 "User is disabled" — an AccountDisabled
rejection, not TokenRevoked.  Concrete input: account dave disabled,
token exp 100, current time 0. -/
theorem C2_counterexample :
    (revoke_access_token 0 (DB.mk [User.mk "dave" "Dave" true "user" "h"] [])
        (Token.mk "tkd" true true (Payload.mk "dave" (some 100)))).2
      = Except.ok "Access token revoked successfully" ∧
    verify_access_token 0
        (revoke_access_token 0 (DB.mk [User.mk "dave" "Dave" true "user" "h"] [])
            (Token.mk "tkd" true true (Payload.mk "dave" (some 100)))).1
        (Token.mk "tkd" true true (Payload.mk "dave" (some 100)))
      = Except.error ⟨401, "User is disabled"⟩ ∧
    (HTTPError.mk 401 "User is disabled")
      ≠ (HTTPError.mk 401 "Access token has been revoked") :=
  ⟨rfl, rfl, by decide⟩

/-- C2 amended: once revoke(t) has succeeded, in every reachable later
state verify(t) never succeeds — t never becomes valid again — and
whenever verify reaches the revocation check (the token still decodes
and its account exists and is enabled), it fails TokenRevoked, even
before t's expiry instant. -/
theorem C2_revocation_monotonic (now : Timestamp) (db : DB) (t : Token)
    (msg : String)
    (hrev : (revoke_access_token now db t).2 = Except.ok msg)
    (db2 : DB) (hreach : Reachable (revoke_access_token now db t).1 db2) :
    (∀ now2 u, verify_access_token now2 db2 t ≠ Except.ok u) ∧
    (∀ now2 p u, jwtDecode now2 t = Except.ok p →
        findUser db2 p.username = some u → u.disabled = false →
        verify_access_token now2 db2 t
          = Except.error ⟨401, "Access token has been revoked"⟩) := by
  obtain ⟨r, hrmem, hrtok⟩ := revoke_ok_inserts now db t msg hrev
  have hrmem2 : r ∈ db2.revoked := reachable_revoked_mono hreach r hrmem
  have hsome : ∃ x, findRevoked db2 t.raw = some x := by
    have hs : (db2.revoked.find? (fun rr => rr.token == t.raw)).isSome := by
      rw [List.find?_isSome]
      exact ⟨r, hrmem2, by simp [hrtok]⟩
    exact Option.isSome_iff_exists.mp hs
  obtain ⟨x, hx⟩ := hsome
  constructor
  · intro now2 u
    rcases hd : jwtDecode now2 t with e | p
    · cases e <;> simp [verify_access_token, hd]
    · rcases hf : findUser db2 p.username with _ | u2
      · simp [verify_access_token, hd, hf]
      · rcases hdis : u2.disabled with _ | _
        · simp [verify_access_token, hd, hf, hdis, hx]
        · simp [verify_access_token, hd, hf, hdis]
  · intro now2 p u hd hf hdis
    simp [verify_access_token, hd, hf, hdis, hx]

/-- Witness for the amended C2: immediately after revoking an enabled
account's token, verify rejects it as revoked. -/
theorem C2_revocation_monotonic_witness :
    verify_access_token 0
        (revoke_access_token 0 (DB.mk [User.mk "ben" "Ben" false "user" "h"] [])
            (Token.mk "tkb" true true (Payload.mk "ben" (some 100)))).1
        (Token.mk "tkb" true true (Payload.mk "ben" (some 100)))
      = Except.error ⟨401, "Access token has been revoked"⟩ :=
  (C2_revocation_monotonic 0 (DB.mk [User.mk "ben" "Ben" false "user" "h"] [])
      (Token.mk "tkb" true true (Payload.mk "ben" (some 100)))
      "Access token revoked successfully" rfl
      (revoke_access_token 0 (DB.mk [User.mk "ben" "Ben" false "user" "h"] [])
          (Token.mk "tkb" true true (Payload.mk "ben" (some 100)))).1
      Relation.ReflTransGen.refl).2 0 (Payload.mk "ben" (some 100))
    (User.mk "ben" "Ben" false "user" "h") rfl rfl rfl

/-- Every transition of the service preserves "at most one revocation row
per token string": the only inserter is revoke_access_token, whose
duplicate check runs before its insert. -/
theorem step_preserves_revoked_unique {a b : DB} (h : Step a b)
    (hinv : RevokedUnique a) : RevokedUnique b := by
  intro s
  cases h with
  | create now db t u => rw [create_user_revoked_eq]; exact hinv s
  | update now db username upd t => rw [update_user_revoked_eq]; exact hinv s
  | delete now db username t => rw [delete_user_revoked_eq]; exact hinv s
  | revoke now db t =>
    rcases revoke_revoked_cases now a t with h1 | ⟨hfresh, e, h1⟩
    · rw [h1]; exact hinv s
    · rw [h1, List.countP_append]
      by_cases ht : t.raw = s
      · have hzero : a.revoked.countP (fun r => r.token == s) = 0 := by
          rw [List.countP_eq_zero]
          intro rr hrr
          have hne : ∀ x ∈ a.revoked, ¬x.token = t.raw := by
            simpa [findRevoked] using hfresh
          rw [ht] at hne
          simpa using hne rr hrr
        rw [hzero]
        simp [List.countP_cons, ht]
      · have hone : ([RevokedToken.mk none t.raw e].countP (fun r => r.token == s)) = 0 := by
          simp [List.countP_cons, ht]
        rw [hone]
        simpa using hinv s

/-- C8 as stated is false on the code: the RevokedToken table schema
declares a primary key only on the surrogate id and NO unique
constraint on the token column, so the store itself admits two rows
with the same token string; uniqueness rests solely on the caller's
check-then-insert. -/
theorem C8_counterexample :
    schemaAdmissible
      [RevokedToken.mk (some 1) "tok" 9, RevokedToken.mk (some 2) "tok" 9] ∧
    ([RevokedToken.mk (some 1) "tok" 9,
      RevokedToken.mk (some 2) "tok" 9].countP (fun r => r.token == "tok")) = 2 ∧
    schemaEnforcesUnique "token" = false ∧
    schemaEnforcesUnique "id" = true :=
  ⟨by decide, rfl, rfl, rfl⟩

/-- C8 amended: in every state reachable (sequentially) from a state with
at most one revocation row per token string, each token string still
has at most one row — but this is guaranteed only by the caller's
check-then-insert in revoke_access_token, not by the store schema. -/
theorem C8_token_unique_reachable (db db2 : DB)
    (hinv : RevokedUnique db) (hreach : Reachable db db2) :
    RevokedUnique db2 := by
  unfold Reachable at hreach
  induction hreach with
  | refl => exact hinv
  | tail hsteps hstep ih => exact step_preserves_revoked_unique hstep ih

/-- Witness for the amended C8 at the empty database. -/
theorem C8_token_unique_reachable_witness : RevokedUnique (DB.mk [] []) :=
  C8_token_unique_reachable (DB.mk [] []) (DB.mk [] [])
    (fun s => by simp) Relation.ReflTransGen.refl

end PVI
